import Mathlib

/-!
Shallow embedding of the session-lifecycle subsystem of
raziel-aleman/go-starter: the `internal/session` package (Session entity,
SessionManager, CSRF verification, SessionResponseWriter), the
`internal/store` in-memory session store, and the server configuration
that instantiates them.  Go `map[string]T` values are modelled as
association lists with unique keys (the first matching entry is the
binding); `time.Time` and `time.Duration` are modelled as `Int`
nanoseconds; the secure random source is modelled as an explicit
parameter (an `Option` of the generated tokens, `none` modelling
random-source failure).
-/

namespace GoStarter

/-- Values storable in `Session.Data` (Go `map[string]any`; the spec asks
for at minimum string, integer and boolean values). -/
inductive SValue where
  | str : String → SValue
  | int : Int → SValue
  | bool : Bool → SValue
deriving DecidableEq, Repr

/-- Lookup in a Go map modelled as an association list: the first entry
with the key is the binding. -/
def dataGet (d : List (String × SValue)) (k : String) : Option SValue :=
  match d with
  | [] => none
  | (k', v) :: rest => if k' = k then some v else dataGet rest k

/-- Removal of a key, modelling Go `delete(m, k)`. -/
def dataErase (d : List (String × SValue)) (k : String) : List (String × SValue) :=
  match d with
  | [] => []
  | (k', v) :: rest =>
    if k' = k then dataErase rest k else (k', v) :: dataErase rest k

/-- Insertion or overwrite of a key, modelling Go `m[k] = v`. -/
def dataPut (d : List (String × SValue)) (k : String) (v : SValue) :
    List (String × SValue) :=
  (k, v) :: dataErase d k

/-- Go `time.Time` and `time.Duration` are both nanosecond counts. -/
abbrev Time := Int

/-- Session from internal/session: ID, CreatedAt, LastActive and the Data
map (the per-session RWMutex has no sequential content). -/
structure Session where
  ID : String
  CreatedAt : Time
  LastActive : Time
  Data : List (String × SValue)
deriving DecidableEq, Repr

/-- NewSession from internal/session, with the two secure-random outputs
(the session id from generateSessionID and the token from
generateCSRFToken) and the current time passed explicitly.  The Go code
initializes Data to `map[string]any\x7b"csrf_token": generateCSRFToken(),
"username": ""\x7d`. -/
def NewSession (id csrfToken : String) (now : Time) : Session :=
  { ID := id
    CreatedAt := now
    LastActive := now
    Data := [("csrf_token", .str csrfToken), ("username", .str "")] }

/-- Session.Get: read a value from the session data (Go returns the map
zero value `nil` for a missing key, modelled as `none`). -/
def Session.get (s : Session) (k : String) : Option SValue :=
  dataGet s.Data k

/-- Session.Put: set a value and refresh LastActive. -/
def Session.put (s : Session) (k : String) (v : SValue) (now : Time) : Session :=
  { s with Data := dataPut s.Data k v, LastActive := now }

/-- Session.Delete: remove a value and refresh LastActive. -/
def Session.del (s : Session) (k : String) (now : Time) : Session :=
  { s with Data := dataErase s.Data k, LastActive := now }

/-- Go error values that the modelled code can return.  `errNoCookie`
models `http.ErrNoCookie` (returned by the store on a missing id);
`errRandom` models a secure-random read failure wrapped by NewSession. -/
inductive GoError where
  | errNoCookie : GoError
  | errRandom : GoError
deriving DecidableEq, Repr

/-- The in-memory store map from internal/store: `map[string]*Session`,
modelled as an association list with unique keys. -/
abbrev Store := List (String × Session)

/-- Lookup of a session by id in the store map. -/
def storeFind (st : Store) (id : String) : Option Session :=
  match st with
  | [] => none
  | (k, s) :: rest => if k = id then some s else storeFind rest id

/-- InMemorySessionStore.Read: returns the session, or http.ErrNoCookie
when the id is not in the map. -/
def storeRead (st : Store) (id : String) : Except GoError Session :=
  match storeFind st id with
  | some s => .ok s
  | none => .error .errNoCookie

/-- The map update performed by InMemorySessionStore.Destroy:
`delete(s.sessions, id)`. -/
def storeDestroyRun (st : Store) (id : String) : Store :=
  match st with
  | [] => []
  | (k, s) :: rest =>
    if k = id then storeDestroyRun rest id else (k, s) :: storeDestroyRun rest id

/-- The map update performed by InMemorySessionStore.Write:
`s.sessions[session.ID] = session` (upsert keyed by the session's ID). -/
def storeWriteRun (st : Store) (s : Session) : Store :=
  (s.ID, s) :: storeDestroyRun st s.ID

/-- InMemorySessionStore.Write: performs the upsert and returns nil
error unconditionally. -/
def storeWrite (st : Store) (s : Session) : Except GoError Store :=
  .ok (storeWriteRun st s)

/-- InMemorySessionStore.Destroy: performs the delete and returns nil
error unconditionally (Go `delete` on an absent key is a no-op). -/
def storeDestroy (st : Store) (id : String) : Except GoError Store :=
  .ok (storeDestroyRun st id)

/-- The expiry test used by GarbageCollect on one entry:
`now.Sub(session.LastActive) > idleTimeout || now.Sub(session.CreatedAt) > absoluteTimeout`. -/
def gcExpired (s : Session) (idleTimeout absoluteTimeout now : Time) : Bool :=
  now - s.LastActive > idleTimeout || now - s.CreatedAt > absoluteTimeout

/-- The scan-and-delete loop of InMemorySessionStore.GarbageCollect. -/
def gcRun (st : Store) (idleTimeout absoluteTimeout now : Time) : Store :=
  match st with
  | [] => []
  | (id, s) :: rest =>
    if gcExpired s idleTimeout absoluteTimeout now then
      gcRun rest idleTimeout absoluteTimeout now
    else
      (id, s) :: gcRun rest idleTimeout absoluteTimeout now

/-- InMemorySessionStore.GarbageCollect: scans all entries and deletes
every expired one, returning nil error. -/
def storeGarbageCollect (st : Store) (idleTimeout absoluteTimeout now : Time) :
    Except GoError Store :=
  .ok (gcRun st idleTimeout absoluteTimeout now)

/-- SessionManager configuration from internal/session (the Store field
is threaded explicitly as a `Store` value in this embedding). -/
structure SessionManager where
  CookieName : String
  IdleExpiration : Time
  AbsoluteExpiration : Time
deriving DecidableEq, Repr

/-- The SessionManager built in NewServer: cookie name "GOSESSID", idle
expiration 30 minutes, absolute expiration 24 hours (in nanoseconds). -/
def serverSessionManager : SessionManager :=
  { CookieName := "GOSESSID"
    IdleExpiration := 30 * 60 * 1000000000
    AbsoluteExpiration := 24 * 60 * 60 * 1000000000 }

/-- SessionManager.isValid: nil session is invalid; an expired session is
invalid and is destroyed in the store as a side effect; otherwise valid.
Returns the validity bit together with the store after the side effect. -/
def isValid (sm : SessionManager) (session : Option Session) (now : Time)
    (st : Store) : Bool × Store :=
  match session with
  | none => (false, st)
  | some s =>
    if now - s.LastActive > sm.IdleExpiration ∨
        now - s.CreatedAt > sm.AbsoluteExpiration then
      (false, storeDestroyRun st s.ID)
    else
      (true, st)

/-- The copy loop inside SessionManager.Migrate: for every entry of the
old session's data, skip the csrf_token key and Put the entry into the
new session. -/
def copyLoop (entries : List (String × SValue)) (ns : Session) (now : Time) :
    Session :=
  entries.foldl
    (fun acc kv => if kv.1 = "csrf_token" then acc else acc.put kv.1 kv.2 now)
    ns

/-- SessionManager.Migrate: builds a brand-new session from fresh random
tokens, copies every data key except csrf_token from the old session,
then destroys the old session's id in the store.  Returns the new session,
the updated store and the error channel (Go returns the old session and
the error when Store.Destroy fails). -/
def Migrate (s : Session) (newId newTok : String) (now : Time) (st : Store) :
    Session × Store × Option GoError :=
  let ns := copyLoop s.Data (NewSession newId newTok now) now
  match storeDestroy st s.ID with
  | .ok st' => (ns, st', none)
  | .error e => (s, st, some e)

/-- The parts of an http.Request the session middleware consults.
`r.FormValue` and `r.Header.Get` return the empty string when the field
or header is absent, so absence is modelled by `""`. -/
structure Request where
  method : String
  formCsrf : String
  headerXsrf : String
deriving DecidableEq, Repr

/-- SessionManager.verifyCSRFToken: reads csrf_token from the session
data (false if missing or not a string), takes the csrf_token form value,
falls back to the X-XSRF-Token header when the form value is empty, and
compares with plain equality. -/
def verifyCSRFToken (r : Request) (session : Session) : Bool :=
  match session.get "csrf_token" with
  | some (.str sToken) =>
    let token := r.formCsrf
    let token := if token = "" then r.headerXsrf else token
    token = sToken
  | _ => false

/-- The token value the code ends up comparing: the csrf_token form value
if nonempty, otherwise the X-XSRF-Token header value. -/
def suppliedToken (r : Request) : String :=
  if r.formCsrf = "" then r.headerXsrf else r.formCsrf

/-- The mutating-method test of SessionMiddleware: POST, PUT, PATCH or
DELETE. -/
def isMutating (method : String) : Bool :=
  method = "POST" ∨ method = "PUT" ∨ method = "PATCH" ∨ method = "DELETE"

/-- The CSRF gate of SessionMiddleware around the wrapped handler: on a
mutating request with a failed token check it responds 403 Forbidden and
returns without calling the handler; otherwise it calls the handler.
The handler is an arbitrary state transformer so that "no handler side
effects" is expressible; the returned Nat is the response status. -/
def csrfGate {α : Type} (r : Request) (session : Session)
    (handler : α → Nat × α) (x : α) : Nat × α :=
  if isMutating r.method ∧ ¬ verifyCSRFToken r session then
    (403, x)
  else
    handler x

/-- NewSession with its error channel: fails exactly when the secure
random source fails (`rng = none`), propagating the error; otherwise
builds the session from the generated id and token. -/
def NewSessionE (rng : Option (String × String)) (now : Time) :
    Except GoError Session :=
  match rng with
  | none => .error .errRandom
  | some (id, tok) => .ok (NewSession id tok now)

/-- The session-resolution phase of SessionManager.SessionMiddleware:
read the cookie; when present, Store.Read and isValid (which may destroy
an expired session); on any miss create a new session with
`session, _ = NewSession()`, DISCARDING the error, so a failed random
source yields a nil session (`none`) attached to the request.  Returns
the attached session and the store after side effects. -/
def middlewareResolve (sm : SessionManager) (cookie : Option String)
    (st : Store) (rng : Option (String × String)) (now : Time) :
    Option Session × Store :=
  match cookie with
  | some cv =>
    match storeFind st cv with
    | some s =>
      let vr := isValid sm (some s) now st
      if vr.1 then (some s, vr.2)
      else ((NewSessionE rng now).toOption, vr.2)
    | none => ((NewSessionE rng now).toOption, st)
  | none => ((NewSessionE rng now).toOption, st)

/-- An http.Cookie as built by writeCookieIfNecessary.  `maxAge = 0` and
`expires = 0` model the Go zero values (field unset). -/
structure Cookie where
  name : String
  value : String
  path : String
  maxAge : Int
  expires : Time
  httpOnly : Bool
  secure : Bool
  sameSiteLax : Bool
deriving DecidableEq, Repr

/-- The clearing cookie built when the session was destroyed: empty
value, MaxAge -1, HttpOnly, Secure (the package constant `secure` is
true), SameSite Lax, path "/". -/
def clearCookie (sm : SessionManager) : Cookie :=
  { name := sm.CookieName
    value := ""
    path := "/"
    maxAge := -1
    expires := 0
    httpOnly := true
    secure := true
    sameSiteLax := true }

/-- The live-session cookie: value is the session id, Expires is
now + AbsoluteExpiration, HttpOnly, Secure, SameSite Lax, path "/". -/
def liveCookie (sm : SessionManager) (s : Session) (now : Time) : Cookie :=
  { name := sm.CookieName
    value := s.ID
    path := "/"
    maxAge := 0
    expires := now + sm.AbsoluteExpiration
    httpOnly := true
    secure := true
    sameSiteLax := true }

/-- Calls made on the underlying http.ResponseWriter, in order: a
Set-Cookie header addition, the WriteHeader call with a status, or a body
Write (bytes modelled by length). -/
inductive WEvent where
  | setCookie : Cookie → WEvent
  | header : Nat → WEvent
  | body : Nat → WEvent
deriving DecidableEq, Repr

/-- SessionResponseWriter state: the wrapped session pointer, the
HeaderWritten and SessionDestroyed flags, the captured StatusCode, the
list of calls already issued to the underlying writer, and the store. -/
structure SRW where
  session : Option Session
  headerWritten : Bool
  sessionDestroyed : Bool
  statusCode : Nat
  events : List WEvent
  store : Store
deriving DecidableEq, Repr

/-- The SessionResponseWriter built at the top of SessionMiddleware:
flags false, StatusCode 200, nothing written yet. -/
def initSRW (session : Option Session) (st : Store) : SRW :=
  { session := session
    headerWritten := false
    sessionDestroyed := false
    statusCode := 200
    events := []
    store := st }

/-- SessionResponseWriter.writeCookieIfNecessary: when the session was
destroyed, add the clearing cookie; otherwise, when a session is present,
touch its LastActive, Store.Write it, and add the live cookie; when the
session pointer is nil and not destroyed, add no cookie. -/
def writeCookieIfNecessary (sm : SessionManager) (now : Time) (srw : SRW) :
    SRW :=
  if srw.sessionDestroyed then
    { srw with events := srw.events ++ [.setCookie (clearCookie sm)] }
  else
    match srw.session with
    | some s =>
      let s' := { s with LastActive := now }
      { srw with
          session := some s'
          store := storeWriteRun srw.store s'
          events := srw.events ++ [.setCookie (liveCookie sm s' now)] }
    | none => srw

/-- SessionResponseWriter.WriteHeader: subsequent calls after the first
are ignored; the first call captures the status, runs
writeCookieIfNecessary, forwards WriteHeader to the underlying writer and
sets HeaderWritten. -/
def SRW.writeHeader (sm : SessionManager) (now : Time) (srw : SRW)
    (statusCode : Nat) : SRW :=
  if srw.headerWritten then srw
  else
    let srw1 := { srw with statusCode := statusCode }
    let srw2 := writeCookieIfNecessary sm now srw1
    { srw2 with
        events := srw2.events ++ [.header srw2.statusCode]
        headerWritten := true }

/-- SessionResponseWriter.Write: if the header was not yet written, first
WriteHeader(200) through the wrapper, then forward the body bytes. -/
def SRW.write (sm : SessionManager) (now : Time) (srw : SRW) (b : Nat) :
    SRW :=
  let srw1 := if ¬ srw.headerWritten then srw.writeHeader sm now 200 else srw
  { srw1 with events := srw1.events ++ [.body b] }

/-- Actions a wrapped handler can take on the SessionResponseWriter:
call WriteHeader, call Write, or assign the public StatusCode field
directly (as LogoutHandler and LoginHandler do). -/
inductive HAction where
  | writeHeader : Nat → HAction
  | write : Nat → HAction
  | setStatus : Nat → HAction
  | logout : HAction
deriving DecidableEq, Repr

/-- One handler action applied to the response writer. -/
def stepSRW (sm : SessionManager) (now : Time) (srw : SRW) (a : HAction) :
    SRW :=
  match a with
  | .writeHeader n => srw.writeHeader sm now n
  | .write b => srw.write sm now b
  | .setStatus n => { srw with statusCode := n }
  | .logout =>
    let st' := match srw.session with
      | some s => storeDestroyRun srw.store s.ID
      | none => srw.store
    { srw with store := st', sessionDestroyed := true, session := none }

/-- The wrapped handler's interaction with the response writer, as the
sequence of its actions. -/
def runHandler (sm : SessionManager) (now : Time) (srw : SRW)
    (actions : List HAction) : SRW :=
  actions.foldl (stepSRW sm now) srw

/-- The deferred finalizer at the end of SessionMiddleware: if the
handler never wrote the header, force WriteHeader with the captured (or
default 200) StatusCode. -/
def finalize (sm : SessionManager) (now : Time) (srw : SRW) : SRW :=
  if ¬ srw.headerWritten then srw.writeHeader sm now srw.statusCode else srw

/-- A full response under the middleware: run the handler's actions, then
the deferred finalizer. -/
def runResponse (sm : SessionManager) (now : Time) (srw : SRW)
    (actions : List HAction) : SRW :=
  finalize sm now (runHandler sm now srw actions)

/-- Count of Set-Cookie additions among the underlying-writer calls. -/
def countCookies (events : List WEvent) : Nat :=
  events.countP (fun e => match e with | .setCookie _ => true | _ => false)

/-- The single-write invariant of the response writer: the session
pointer is live unless the session was destroyed, the number of
Set-Cookie additions is one if the header was written and zero
otherwise, and once the header is written on a live session the store
holds the session under its id. -/
def cookieInv (srw : SRW) : Prop :=
  (srw.sessionDestroyed = true ∨ srw.session.isSome = true) ∧
  countCookies srw.events = (if srw.headerWritten then 1 else 0) ∧
  (srw.headerWritten = true → srw.sessionDestroyed = false →
    ∃ s₂, srw.session = some s₂ ∧ storeFind srw.store s₂.ID = some s₂)

/-- A concrete session for witnesses: fresh session with id sid1 and
csrf token tok1 created at time 0. -/
def demoSession : Session := NewSession "sid1" "tok1" 0

/-- A concrete one-entry store for witnesses. -/
def demoStore : Store := [("sid1", demoSession)]

/-- A concrete mutating request whose form field carries tok1. -/
def demoRequest : Request :=
  { method := "POST", formCsrf := "tok1", headerXsrf := "" }

/-- A session whose LastActive and CreatedAt are both at time 0, used
for the expiry scenarios. -/
def gcDemoSession : Session :=
  { ID := "sid1", CreatedAt := 0, LastActive := 0, Data := [] }

/-- A one-entry store holding the expiry-scenario session. -/
def gcDemoStore : Store := [("sid1", gcDemoSession)]

/-- A time far past every expiration window (about 31 years in
nanoseconds). -/
def bigNow : Time := 1000000000000000000

/-- An old session carrying only a csrf_token entry (its username entry
was deleted), used to probe Migrate. -/
def c1OldSession : Session :=
  { ID := "old", CreatedAt := 0, LastActive := 0,
    Data := [("csrf_token", .str "oldtok")] }

/-- A response writer whose session has been destroyed (the logout
path). -/
def destroyedSRW : SRW :=
  { session := none, headerWritten := false, sessionDestroyed := true,
    statusCode := 200, events := [], store := [] }

/-- A response writer holding a live session. -/
def liveSRW : SRW :=
  { session := some demoSession, headerWritten := false,
    sessionDestroyed := false, statusCode := 200, events := [], store := [] }

/-- A key absent from the key list has no binding. -/
lemma dataGet_eq_none_of_not_mem (d : List (String × SValue)) (k : String)
    (h : k ∉ d.map Prod.fst) : dataGet d k = none := by
  induction d with
  | nil => rfl
  | cons hd tl ih =>
    obtain ⟨k₀, v₀⟩ := hd
    simp only [List.map_cons, List.mem_cons] at h
    push_neg at h
    simp only [dataGet]
    rw [if_neg (fun hh => h.1 hh.symm)]
    exact ih h.2

/-- Lookup after key removal. -/
lemma dataGet_dataErase (d : List (String × SValue)) (k k' : String) :
    dataGet (dataErase d k) k' = if k = k' then none else dataGet d k' := by
  induction d with
  | nil => simp [dataErase, dataGet]
  | cons hd tl ih =>
    obtain ⟨k₀, v₀⟩ := hd
    simp only [dataErase, dataGet]
    by_cases h₀ : k₀ = k
    · rw [if_pos h₀, ih]
      by_cases h₁ : k = k'
      · simp [h₁]
      · rw [if_neg h₁, if_neg h₁, if_neg (fun hh => h₁ (h₀ ▸ hh))]
    · rw [if_neg h₀]
      simp only [dataGet]
      by_cases h₁ : k₀ = k'
      · rw [if_pos h₁, if_pos h₁, if_neg (fun hh => h₀ (h₁ ▸ hh.symm))]
      · rw [if_neg h₁, if_neg h₁, ih]

/-- Lookup after insertion or overwrite. -/
lemma dataGet_dataPut (d : List (String × SValue)) (k k' : String)
    (v : SValue) :
    dataGet (dataPut d k v) k' = if k = k' then some v else dataGet d k' := by
  simp only [dataPut, dataGet]
  by_cases h : k = k'
  · rw [if_pos h, if_pos h]
  · rw [if_neg h, if_neg h, dataGet_dataErase, if_neg h]

/-- Store lookup after Destroy: the destroyed id is gone, other ids keep
their bindings. -/
lemma storeFind_destroyRun (st : Store) (id id' : String) :
    storeFind (storeDestroyRun st id) id' =
      if id' = id then none else storeFind st id' := by
  induction st with
  | nil => simp [storeDestroyRun, storeFind]
  | cons hd tl ih =>
    obtain ⟨k₀, s₀⟩ := hd
    simp only [storeDestroyRun, storeFind]
    by_cases h₀ : k₀ = id
    · rw [if_pos h₀, ih]
      by_cases h₁ : id' = id
      · simp [h₁]
      · rw [if_neg h₁, if_neg h₁, if_neg (fun hh => h₁ (h₀ ▸ hh.symm))]
    · rw [if_neg h₀]
      simp only [storeFind]
      by_cases h₁ : k₀ = id'
      · rw [if_pos h₁, if_pos h₁, if_neg (fun hh => h₀ (h₁.trans hh))]
      · rw [if_neg h₁, if_neg h₁, ih]

/-- Destroying an id with no binding leaves the store unchanged. -/
lemma storeDestroyRun_of_not_found (st : Store) (id : String)
    (h : storeFind st id = none) : storeDestroyRun st id = st := by
  induction st with
  | nil => rfl
  | cons hd tl ih =>
    obtain ⟨k₀, s₀⟩ := hd
    simp only [storeFind] at h
    by_cases h₀ : k₀ = id
    · rw [if_pos h₀] at h
      exact absurd h (by simp)
    · rw [if_neg h₀] at h
      simp only [storeDestroyRun]
      rw [if_neg h₀, ih h]

/-- Store lookup after Write: the written session shadows the old binding
of its id, other ids keep their bindings. -/
lemma storeFind_writeRun (st : Store) (s : Session) (id : String) :
    storeFind (storeWriteRun st s) id =
      if id = s.ID then some s else storeFind st id := by
  simp only [storeWriteRun, storeFind]
  by_cases h : s.ID = id
  · rw [if_pos h, if_pos h.symm]
  · rw [if_neg h, if_neg (fun hh => h hh.symm), storeFind_destroyRun,
      if_neg (fun hh => h hh.symm)]

/-- A store id absent from the key list has no binding. -/
lemma storeFind_eq_none_of_not_mem (st : Store) (id : String)
    (h : id ∉ st.map Prod.fst) : storeFind st id = none := by
  induction st with
  | nil => rfl
  | cons hd tl ih =>
    obtain ⟨k₀, s₀⟩ := hd
    simp only [List.map_cons, List.mem_cons] at h
    push_neg at h
    simp only [storeFind]
    rw [if_neg (fun hh => h.1 hh.symm)]
    exact ih h.2

/-- An id with no binding keeps having none after the sweep. -/
lemma storeFind_gcRun_none (st : Store)
    (idleTimeout absoluteTimeout now : Time) (id : String)
    (h : storeFind st id = none) :
    storeFind (gcRun st idleTimeout absoluteTimeout now) id = none := by
  induction st with
  | nil => rfl
  | cons hd tl ih =>
    obtain ⟨k₀, s₀⟩ := hd
    simp only [storeFind] at h
    by_cases h₀ : k₀ = id
    · rw [if_pos h₀] at h
      exact absurd h (by simp)
    · rw [if_neg h₀] at h
      simp only [gcRun]
      by_cases hexp : gcExpired s₀ idleTimeout absoluteTimeout now
      · rw [if_pos hexp]
        exact ih h
      · rw [if_neg hexp]
        simp only [storeFind]
        rw [if_neg h₀]
        exact ih h

/-- Store lookup after the garbage-collection sweep, given the unique-key
invariant of the Go map: an expired entry is gone, any other entry keeps
its binding untouched. -/
lemma storeFind_gcRun (st : Store) (idleTimeout absoluteTimeout now : Time)
    (id : String) (h : (st.map Prod.fst).Nodup) :
    storeFind (gcRun st idleTimeout absoluteTimeout now) id =
      match storeFind st id with
      | some s =>
        if gcExpired s idleTimeout absoluteTimeout now then none else some s
      | none => none := by
  induction st with
  | nil => rfl
  | cons hd tl ih =>
    obtain ⟨k₀, s₀⟩ := hd
    simp only [List.map_cons, List.nodup_cons] at h
    have ih2 := ih h.2
    by_cases h₀ : k₀ = id
    · subst h₀
      have htl := storeFind_eq_none_of_not_mem tl k₀ h.1
      have hnone := storeFind_gcRun_none tl idleTimeout absoluteTimeout now k₀ htl
      by_cases hexp : gcExpired s₀ idleTimeout absoluteTimeout now
      · simp [gcRun, storeFind, hexp, hnone]
      · simp [gcRun, storeFind, hexp]
    · by_cases hexp : gcExpired s₀ idleTimeout absoluteTimeout now
      · simp [gcRun, storeFind, hexp, h₀, ih2]
      · simp [gcRun, storeFind, hexp, h₀, ih2]

/-- The Migrate copy loop never changes the new session's id. -/
lemma copyLoop_ID (entries : List (String × SValue)) (ns : Session)
    (now : Time) : (copyLoop entries ns now).ID = ns.ID := by
  induction entries generalizing ns with
  | nil => rfl
  | cons hd tl ih =>
    simp only [copyLoop, List.foldl_cons] at ih ⊢
    by_cases h : hd.1 = "csrf_token"
    · rw [if_pos h]
      exact ih ns
    · rw [if_neg h]
      exact ih (ns.put hd.1 hd.2 now)

/-- Data lookup in the session produced by the Migrate copy loop, given
the unique-key invariant of the Go map being ranged over: the csrf_token
binding of the new session survives, every key bound in the old data is
copied, and keys bound in neither keep the new session's bindings. -/
lemma dataGet_copyLoop (entries : List (String × SValue)) (ns : Session)
    (now : Time) (k : String) (hnd : (entries.map Prod.fst).Nodup) :
    dataGet (copyLoop entries ns now).Data k =
      if k = "csrf_token" then dataGet ns.Data k
      else
        match dataGet entries k with
        | some v => some v
        | none => dataGet ns.Data k := by
  induction entries generalizing ns with
  | nil =>
    simp only [copyLoop, List.foldl_nil, dataGet]
    split <;> rfl
  | cons hd tl ih =>
    obtain ⟨k₀, v₀⟩ := hd
    simp only [List.map_cons, List.nodup_cons] at hnd
    simp only [copyLoop, List.foldl_cons] at ih ⊢
    by_cases h₀ : k₀ = "csrf_token"
    · rw [if_pos h₀, ih ns hnd.2]
      by_cases hk : k = "csrf_token"
      · simp [hk]
      · have hne : ¬ (k₀ = k) := fun hh => hk (hh ▸ h₀)
        simp [dataGet, hk, hne]
    · rw [if_neg h₀, ih (ns.put k₀ v₀ now) hnd.2]
      by_cases hk : k = "csrf_token"
      · rw [if_pos hk, if_pos hk]
        show dataGet (dataPut ns.Data k₀ v₀) k = dataGet ns.Data k
        rw [dataGet_dataPut, if_neg (fun hh => h₀ (hh.trans hk))]
      · rw [if_neg hk, if_neg hk]
        by_cases hkk : k₀ = k
        · subst hkk
          have htl : dataGet tl k₀ = none :=
            dataGet_eq_none_of_not_mem tl k₀ hnd.1
          simp only [dataGet, htl, eq_self_iff_true, if_true]
        · have hput : dataGet (ns.put k₀ v₀ now).Data k = dataGet ns.Data k := by
            show dataGet (dataPut ns.Data k₀ v₀) k = dataGet ns.Data k
            rw [dataGet_dataPut, if_neg hkk]
          rw [hput]
          simp only [dataGet, if_neg hkk]

/-- Cookie count distributes over appended event lists. -/
lemma countCookies_append (a b : List WEvent) :
    countCookies (a ++ b) = countCookies a + countCookies b := by
  simp [countCookies, List.countP_append]

/-- Effect of writeCookieIfNecessary on the invariant fields: exactly one
Set-Cookie is added, the flags are unchanged, the session stays live, and
on the live path the touched session is written to the store. -/
lemma writeCookieIfNecessary_spec (sm : SessionManager) (now : Time)
    (srw : SRW) (h : srw.sessionDestroyed = true ∨ srw.session.isSome = true) :
    countCookies (writeCookieIfNecessary sm now srw).events =
        countCookies srw.events + 1 ∧
    (writeCookieIfNecessary sm now srw).headerWritten = srw.headerWritten ∧
    (writeCookieIfNecessary sm now srw).sessionDestroyed =
        srw.sessionDestroyed ∧
    (writeCookieIfNecessary sm now srw).statusCode = srw.statusCode ∧
    ((writeCookieIfNecessary sm now srw).sessionDestroyed = true ∨
      (writeCookieIfNecessary sm now srw).session.isSome = true) ∧
    (srw.sessionDestroyed = false →
      ∃ s₂, (writeCookieIfNecessary sm now srw).session = some s₂ ∧
        storeFind (writeCookieIfNecessary sm now srw).store s₂.ID = some s₂) := by
  by_cases hd : srw.sessionDestroyed
  · simp [writeCookieIfNecessary, hd, countCookies_append, countCookies]
  · have hs : srw.session.isSome = true := by
      rcases h with h | h
      · exact absurd h hd
      · exact h
    obtain ⟨s, hsome⟩ := Option.isSome_iff_exists.mp hs
    simp only [writeCookieIfNecessary, hd, if_neg, hsome]
    have hb : (decide ¬False) = true := by decide
    refine ⟨?_, ?_, ?_, ?_, ?_, ?_⟩
    · simp [hd, hsome, countCookies_append, countCookies]
    · simp [hd, hsome]
    · simp [hd, hsome]
    · simp [hd, hsome]
    · simp [hd, hsome]
    · intro _
      refine ⟨{ s with LastActive := now }, ?_, ?_⟩
      · simp [hd, hsome]
      · simp [hd, hsome, storeFind_writeRun]

/-- WriteHeader preserves the single-write invariant and leaves the
header-written flag set. -/
lemma writeHeader_inv (sm : SessionManager) (now : Time) (srw : SRW)
    (n : Nat) (h : cookieInv srw) :
    cookieInv (srw.writeHeader sm now n) ∧
    (srw.writeHeader sm now n).headerWritten = true := by
  by_cases hw : srw.headerWritten
  · rw [SRW.writeHeader, if_pos hw]
    exact ⟨h, hw⟩
  · rw [SRW.writeHeader, if_neg hw]
    have h1 : ({ srw with statusCode := n } : SRW).sessionDestroyed = true ∨
        ({ srw with statusCode := n } : SRW).session.isSome = true := h.1
    have hspec := writeCookieIfNecessary_spec sm now { srw with statusCode := n } h1
    refine ⟨⟨?_, ?_, ?_⟩, rfl⟩
    · exact hspec.2.2.2.2.1
    · simp only [countCookies_append, hspec.1]
      have hz : countCookies srw.events = 0 := by
        have := h.2.1
        rwa [if_neg hw] at this
      have hone : countCookies [WEvent.header
          (writeCookieIfNecessary sm now { srw with statusCode := n }).statusCode] = 0 := rfl
      simp [hz, hone]
    · intro _ hdest
      have hdest0 : srw.sessionDestroyed = false := by
        rw [← hspec.2.2.1]
        exact hdest
      obtain ⟨s₂, hs₂, hst⟩ := hspec.2.2.2.2.2 hdest0
      exact ⟨s₂, hs₂, hst⟩

/-- Each handler action on the response writer preserves the
single-write invariant. -/
lemma stepSRW_inv (sm : SessionManager) (now : Time) (srw : SRW)
    (a : HAction) (h : cookieInv srw) : cookieInv (stepSRW sm now srw a) := by
  cases a with
  | writeHeader n => exact (writeHeader_inv sm now srw n h).1
  | write b =>
    simp only [stepSRW, SRW.write]
    by_cases hw : srw.headerWritten
    · rw [if_neg (by simp [hw])]
      refine ⟨h.1, ?_, h.2.2⟩
      simp only [countCookies_append]
      have : countCookies [WEvent.body b] = 0 := rfl
      simp [this, h.2.1]
    · rw [if_pos (by simp [hw])]
      obtain ⟨hinv, hwrit⟩ := writeHeader_inv sm now srw 200 h
      refine ⟨hinv.1, ?_, hinv.2.2⟩
      simp only [countCookies_append]
      have : countCookies [WEvent.body b] = 0 := rfl
      simp [this, hinv.2.1]
  | setStatus n => exact ⟨h.1, h.2.1, h.2.2⟩
  | logout =>
    refine ⟨Or.inl rfl, h.2.1, ?_⟩
    intro _ hdest
    exact absurd hdest (by simp [stepSRW])

/-- Running any list of handler actions preserves the invariant. -/
lemma runHandler_inv (sm : SessionManager) (now : Time) (srw : SRW)
    (actions : List HAction) (h : cookieInv srw) :
    cookieInv (runHandler sm now srw actions) := by
  induction actions generalizing srw with
  | nil => exact h
  | cons a tl ih => exact ih (stepSRW sm now srw a) (stepSRW_inv sm now srw a h)

/-- The deferred finalizer preserves the invariant and guarantees the
header (and so the cookie) has been written. -/
lemma finalize_spec (sm : SessionManager) (now : Time) (srw : SRW)
    (h : cookieInv srw) :
    cookieInv (finalize sm now srw) ∧ (finalize sm now srw).headerWritten = true := by
  by_cases hw : srw.headerWritten
  · rw [finalize, if_neg (by simp [hw])]
    exact ⟨h, hw⟩
  · rw [finalize, if_pos (by simp [hw])]
    exact writeHeader_inv sm now srw srw.statusCode h

/-- C4: evaluation of the code at session construction.  Every newly
constructed session's data has a csrf_token entry equal to the generated
token, but its username entry is the EMPTY string, not the "guest"
sentinel the claim states (HomeHandler patches "" to "guest" only on a
later visit, while AuthMiddleware and LoginHandler treat "guest" as the
unauthenticated sentinel). -/
theorem C4_newSession_username_empty (id tok : String) (now : Time) :
    (NewSession id tok now).get "csrf_token" = some (.str tok) ∧
    (NewSession id tok now).get "username" = some (.str "") ∧
    (NewSession id tok now).get "username" ≠ some (.str "guest") := by
  refine ⟨rfl, rfl, ?_⟩
  have h2 : (NewSession id tok now).get "username" = some (.str "") := rfl
  rw [h2]
  decide

/-- C5: isValid returns false on a nil session with no store effect; on a
session past the idle or absolute deadline it returns false and destroys
the id in the store (so the id is no longer found); a session past the
absolute deadline is invalid regardless of LastActive; otherwise it
returns true with no store effect. -/
theorem C5_isValid_expiry (sm : SessionManager) (s : Session) (now : Time)
    (st : Store) :
    isValid sm none now st = (false, st) ∧
    ((now - s.LastActive > sm.IdleExpiration ∨
        now - s.CreatedAt > sm.AbsoluteExpiration) →
      isValid sm (some s) now st = (false, storeDestroyRun st s.ID) ∧
      storeFind (isValid sm (some s) now st).2 s.ID = none) ∧
    (now - s.CreatedAt > sm.AbsoluteExpiration →
      (isValid sm (some s) now st).1 = false) ∧
    (¬ (now - s.LastActive > sm.IdleExpiration ∨
        now - s.CreatedAt > sm.AbsoluteExpiration) →
      isValid sm (some s) now st = (true, st)) := by
  refine ⟨rfl, ?_, ?_, ?_⟩
  · intro hexp
    constructor
    · simp only [isValid]
      rw [if_pos hexp]
    · simp only [isValid]
      rw [if_pos hexp]
      simp [storeFind_destroyRun]
  · intro habs
    simp only [isValid]
    rw [if_pos (Or.inr habs)]
  · intro hexp
    simp only [isValid]
    rw [if_neg hexp]

/-- C5 witness: the expired concrete session is reported invalid and its
id destroyed in the store. -/
theorem C5_isValid_expiry_witness :
    isValid serverSessionManager (some gcDemoSession) bigNow gcDemoStore =
      (false, storeDestroyRun gcDemoStore gcDemoSession.ID) ∧
    storeFind (isValid serverSessionManager (some gcDemoSession) bigNow
      gcDemoStore).2 gcDemoSession.ID = none :=
  (C5_isValid_expiry serverSessionManager gcDemoSession bigNow
    gcDemoStore).2.1 (by decide)

/-- C6: garbage collection returns ok and removes from the store exactly
the entries whose idle time strictly exceeds idleTimeout or whose age
strictly exceeds absoluteTimeout, leaving every other entry's binding
unchanged. -/
theorem C6_garbageCollect_exact (st : Store)
    (idleTimeout absoluteTimeout now : Time) (id : String)
    (h : (st.map Prod.fst).Nodup) :
    storeGarbageCollect st idleTimeout absoluteTimeout now =
      .ok (gcRun st idleTimeout absoluteTimeout now) ∧
    (∀ s, storeFind st id = some s →
      storeFind (gcRun st idleTimeout absoluteTimeout now) id =
        if now - s.LastActive > idleTimeout ∨ now - s.CreatedAt > absoluteTimeout
        then none else some s) ∧
    (storeFind st id = none →
      storeFind (gcRun st idleTimeout absoluteTimeout now) id = none) := by
  refine ⟨rfl, ?_, ?_⟩
  · intro s hf
    simp only [storeFind_gcRun st idleTimeout absoluteTimeout now id h, hf]
    have hb : gcExpired s idleTimeout absoluteTimeout now = true ↔
        (now - s.LastActive > idleTimeout ∨
          now - s.CreatedAt > absoluteTimeout) := by
      simp [gcExpired]
    by_cases hexp : now - s.LastActive > idleTimeout ∨
        now - s.CreatedAt > absoluteTimeout
    · rw [if_pos (hb.mpr hexp), if_pos hexp]
    · rw [if_neg (fun hc => hexp (hb.mp hc)), if_neg hexp]
  · intro hf
    simp only [storeFind_gcRun st idleTimeout absoluteTimeout now id h, hf]

/-- C6 witness: a sweep with idleTimeout one second removes a session
whose LastActive is two seconds in the past. -/
theorem C6_garbageCollect_exact_witness :
    storeFind (gcRun gcDemoStore 1000000000 86400000000000 2000000000)
      "sid1" = none := by
  have h := (C6_garbageCollect_exact gcDemoStore 1000000000 86400000000000
      2000000000 "sid1" (by decide)).2.1 gcDemoSession (by decide)
  rw [h]
  decide

/-- C7: evaluation of the code at a random-source failure.  NewSession
itself propagates the error, but SessionMiddleware discards it
(session, _ = NewSession()): a cookieless request under a failing random
source gets a nil session attached and request processing proceeds,
contradicting the claim that the failure is propagated and no such
session is ever attached. -/
theorem C7_middleware_discards_rng_failure (sm : SessionManager)
    (st : Store) (now : Time) :
    NewSessionE none now = .error .errRandom ∧
    middlewareResolve sm none st none now = (none, st) :=
  ⟨rfl, rfl⟩

/-- C8: Store.Destroy never returns an error; destroying an id that is
not in the store returns ok and leaves the store unchanged; destroying
the same id twice has the same effect on the store as destroying it
once. -/
theorem C8_destroy_idempotent (st : Store) (id : String) :
    storeDestroy st id = .ok (storeDestroyRun st id) ∧
    (storeFind st id = none → storeDestroyRun st id = st) ∧
    storeDestroyRun (storeDestroyRun st id) id = storeDestroyRun st id := by
  refine ⟨rfl, storeDestroyRun_of_not_found st id, ?_⟩
  apply storeDestroyRun_of_not_found
  rw [storeFind_destroyRun]
  simp

/-- C8 witness: destroying an absent id on the concrete store returns ok
with the store unchanged, and a double destroy equals a single one. -/
theorem C8_destroy_idempotent_witness :
    storeDestroy demoStore "absent" = .ok (storeDestroyRun demoStore "absent") ∧
    storeDestroyRun demoStore "absent" = demoStore ∧
    storeDestroyRun (storeDestroyRun demoStore "absent") "absent" =
      storeDestroyRun demoStore "absent" :=
  ⟨(C8_destroy_idempotent demoStore "absent").1,
   (C8_destroy_idempotent demoStore "absent").2.1 (by decide),
   (C8_destroy_idempotent demoStore "absent").2.2⟩

/-- C10: on the in-memory store, Write always succeeds, a Read of the
written session's id returns exactly that session, and a Read after
Destroy of an id returns the not-found error. -/
theorem C10_read_write_destroy (st : Store) (s : Session) (id : String) :
    storeWrite st s = .ok (storeWriteRun st s) ∧
    storeRead (storeWriteRun st s) s.ID = .ok s ∧
    storeRead (storeDestroyRun st id) id = .error .errNoCookie := by
  refine ⟨rfl, ?_, ?_⟩
  · simp [storeRead, storeFind_writeRun]
  · simp [storeRead, storeFind_destroyRun]

/-- C2: on a mutating request against a session whose stored csrf_token
is a nonempty string (as every session built by NewSession has), an
absent token (empty form field and header) or a supplied token differing
from the stored one short-circuits with a 403 Forbidden response and
the wrapped handler is never applied (its state is returned untouched);
a supplied token equal to the stored one runs the handler. -/
theorem C2_csrf_gate {α : Type} (r : Request) (s : Session) (t : String)
    (handler : α → Nat × α) (x : α)
    (hm : isMutating r.method = true)
    (ht : s.get "csrf_token" = some (.str t)) (hne : t ≠ "") :
    ((r.formCsrf = "" ∧ r.headerXsrf = "") →
      csrfGate r s handler x = (403, x)) ∧
    (suppliedToken r ≠ t → csrfGate r s handler x = (403, x)) ∧
    (suppliedToken r = t → csrfGate r s handler x = handler x) := by
  have hv : verifyCSRFToken r s = decide (suppliedToken r = t) := by
    simp only [verifyCSRFToken, Session.get] at ht ⊢
    rw [ht]
    simp only [suppliedToken]
  refine ⟨?_, ?_, ?_⟩
  · rintro ⟨hf, hh⟩
    have hsup : suppliedToken r = "" := by simp [suppliedToken, hf, hh]
    have hmis : suppliedToken r ≠ t := by
      rw [hsup]
      exact fun hh2 => hne hh2.symm
    simp [csrfGate, hm, hv, hmis]
  · intro hmis
    simp [csrfGate, hm, hv, hmis]
  · intro hmat
    simp [csrfGate, hv, hmat]

/-- C2 witness: the concrete POST request carrying the stored token runs
the handler; the theorem applied at demoRequest and demoSession. -/
theorem C2_csrf_gate_witness :
    csrfGate demoRequest demoSession (fun n : Nat => (200, n + 1)) 0 =
      (200, 1) := by
  have h := (C2_csrf_gate demoRequest demoSession "tok1"
      (fun n : Nat => (200, n + 1)) 0 (by decide) (by decide)
      (by decide)).2.2 (by decide)
  simpa using h

/-- C9: the clearing cookie built by writeCookieIfNecessary when the
session is destroyed has the configured name, empty value, path /,
MaxAge -1 (so at most 0), HttpOnly, Secure, SameSite Lax; the live
cookie carries the session id with expiry now + AbsoluteExpiration and
the same attributes; the server configures the cookie name GOSESSID. -/
theorem C9_cookie_contract (sm : SessionManager) (now : Time) (srw : SRW)
    (s : Session) :
    serverSessionManager.CookieName = "GOSESSID" ∧
    (srw.sessionDestroyed = true →
      (writeCookieIfNecessary sm now srw).events =
        srw.events ++ [.setCookie (clearCookie sm)]) ∧
    ((clearCookie sm).name = sm.CookieName ∧ (clearCookie sm).value = "" ∧
      (clearCookie sm).path = "/" ∧ (clearCookie sm).maxAge = -1 ∧
      (clearCookie sm).maxAge ≤ 0 ∧ (clearCookie sm).httpOnly = true ∧
      (clearCookie sm).secure = true ∧
      (clearCookie sm).sameSiteLax = true) ∧
    (srw.sessionDestroyed = false → srw.session = some s →
      (writeCookieIfNecessary sm now srw).events =
        srw.events ++
          [.setCookie (liveCookie sm { s with LastActive := now } now)]) ∧
    ((liveCookie sm { s with LastActive := now } now).name = sm.CookieName ∧
      (liveCookie sm { s with LastActive := now } now).value = s.ID ∧
      (liveCookie sm { s with LastActive := now } now).path = "/" ∧
      (liveCookie sm { s with LastActive := now } now).expires =
        now + sm.AbsoluteExpiration ∧
      (liveCookie sm { s with LastActive := now } now).httpOnly = true ∧
      (liveCookie sm { s with LastActive := now } now).secure = true ∧
      (liveCookie sm { s with LastActive := now } now).sameSiteLax = true) := by
  refine ⟨rfl, ?_, ?_, ?_, ?_⟩
  · intro hd
    simp [writeCookieIfNecessary, hd]
  · refine ⟨rfl, rfl, rfl, rfl, ?_, rfl, rfl, rfl⟩
    show (-1 : Int) ≤ 0
    decide
  · intro hd hs
    simp [writeCookieIfNecessary, hd, hs]
  · exact ⟨rfl, rfl, rfl, rfl, rfl, rfl, rfl⟩

/-- C9 witness: the cookie events produced on the concrete destroyed and
live response writers. -/
theorem C9_cookie_contract_witness :
    (writeCookieIfNecessary serverSessionManager 5 destroyedSRW).events =
      destroyedSRW.events ++ [.setCookie (clearCookie serverSessionManager)] ∧
    (writeCookieIfNecessary serverSessionManager 5 liveSRW).events =
      liveSRW.events ++
        [.setCookie (liveCookie serverSessionManager
          { demoSession with LastActive := 5 } 5)] :=
  ⟨(C9_cookie_contract serverSessionManager 5 destroyedSRW demoSession).2.1
      rfl,
   (C9_cookie_contract serverSessionManager 5 liveSRW demoSession).2.2.2.1
      rfl rfl⟩

/-- C1 counterexample: for a session whose data lacks the username key
(deleted by a handler), Migrate's result does NOT agree with the old
data on the key username (which differs from csrf_token): the new
session carries the default empty-string username entry while the old
session has none, refuting the claim as stated. -/
theorem C1_migrate_counterexample :
    ("username" : String) ≠ "csrf_token" ∧
    c1OldSession.get "username" = none ∧
    (Migrate c1OldSession "newid" "newtok" 0 []).1.get "username" =
      some (.str "") ∧
    (Migrate c1OldSession "newid" "newtok" 0 []).1.get "username" ≠
      c1OldSession.get "username" := by
  refine ⟨by decide, by decide, by decide, by decide⟩

/-- C1 (amended): for a session s with unique data keys whose data
contains the username key — as every session constructed by NewSession
does — and fresh random outputs distinct from s's id and csrf token,
Migrate returns a session with the new id (differing from s's), a fresh
csrf_token entry differing from s's, data agreeing with s's on every key
other than csrf_token, the old id absent from the store afterward (a
Read reports not-found), and a nil error even when the old id was
already absent. -/
theorem C1_migrate (s : Session) (newId newTok : String) (now : Time)
    (st : Store) (hnd : (s.Data.map Prod.fst).Nodup)
    (huser : dataGet s.Data "username" ≠ none)
    (hid : newId ≠ s.ID)
    (htok : s.get "csrf_token" ≠ some (.str newTok)) :
    (Migrate s newId newTok now st).1.ID = newId ∧
    (Migrate s newId newTok now st).1.ID ≠ s.ID ∧
    (Migrate s newId newTok now st).1.get "csrf_token" =
      some (.str newTok) ∧
    (Migrate s newId newTok now st).1.get "csrf_token" ≠
      s.get "csrf_token" ∧
    (∀ k, k ≠ "csrf_token" →
      (Migrate s newId newTok now st).1.get k = s.get k) ∧
    storeRead (Migrate s newId newTok now st).2.1 s.ID =
      .error .errNoCookie ∧
    (Migrate s newId newTok now st).2.2 = none := by
  have hID : (copyLoop s.Data (NewSession newId newTok now) now).ID = newId :=
    copyLoop_ID s.Data (NewSession newId newTok now) now
  have hIDne : (copyLoop s.Data (NewSession newId newTok now) now).ID ≠ s.ID := by
    rw [hID]
    exact hid
  have hcs : dataGet (copyLoop s.Data (NewSession newId newTok now) now).Data
      "csrf_token" = some (.str newTok) := by
    rw [dataGet_copyLoop s.Data (NewSession newId newTok now) now
      "csrf_token" hnd, if_pos rfl]
    rfl
  have hcsne : dataGet (copyLoop s.Data (NewSession newId newTok now) now).Data
      "csrf_token" ≠ s.get "csrf_token" := by
    rw [hcs]
    exact fun hh => htok hh.symm
  have hagree : ∀ k, k ≠ "csrf_token" →
      dataGet (copyLoop s.Data (NewSession newId newTok now) now).Data k =
        dataGet s.Data k := by
    intro k hk
    rw [dataGet_copyLoop s.Data (NewSession newId newTok now) now k hnd,
      if_neg hk]
    cases hv : dataGet s.Data k with
    | some v => rfl
    | none =>
      have hku : ¬ (k = "username") := by
        intro hh
        exact huser (hh ▸ hv)
      show dataGet (NewSession newId newTok now).Data k = none
      simp only [NewSession, dataGet]
      rw [if_neg (fun hh => hk hh.symm), if_neg (fun hh => hku hh.symm)]
  have hread : storeRead (storeDestroyRun st s.ID) s.ID =
      .error .errNoCookie := by
    simp [storeRead, storeFind_destroyRun]
  exact ⟨hID, hIDne, hcs, hcsne, hagree, hread, rfl⟩

/-- C1 witness: the amended theorem applied to a concrete fresh session
(whose data holds csrf_token and username) migrated with fresh tokens in
an empty store. -/
theorem C1_migrate_witness :
    (Migrate demoSession "sid2" "tok2" 7 demoStore).1.ID = "sid2" ∧
    (Migrate demoSession "sid2" "tok2" 7 demoStore).1.get "csrf_token" =
      some (.str "tok2") ∧
    (Migrate demoSession "sid2" "tok2" 7 demoStore).1.get "username" =
      demoSession.get "username" ∧
    storeRead (Migrate demoSession "sid2" "tok2" 7 demoStore).2.1
      demoSession.ID = .error .errNoCookie := by
  have h := C1_migrate demoSession "sid2" "tok2" 7 demoStore (by decide)
    (by decide) (by decide) (by decide)
  exact ⟨h.1, h.2.2.1, h.2.2.2.2.1 "username" (by decide), h.2.2.2.2.2.1⟩

/-- C3: for every run of a wrapped handler under the session middleware
on a live session, exactly one Set-Cookie addition reaches the
underlying writer, the header-written flag ends true (so any further
WriteHeader is a no-op returning the state unchanged), a non-destroyed
session ends up persisted in the store under its id, and a handler that
never writes (only assigning StatusCode) still gets the cookie and its
captured status emitted by the deferred finalizer. -/
theorem C3_single_cookie (sm : SessionManager) (now : Time) (s : Session)
    (st : Store) (actions : List HAction) (n m : Nat) :
    countCookies (runResponse sm now (initSRW (some s) st) actions).events
      = 1 ∧
    (runResponse sm now (initSRW (some s) st) actions).headerWritten =
      true ∧
    (runResponse sm now (initSRW (some s) st) actions).writeHeader sm now m
      = runResponse sm now (initSRW (some s) st) actions ∧
    ((runResponse sm now (initSRW (some s) st) actions).sessionDestroyed =
        false →
      ∃ s₂,
        (runResponse sm now (initSRW (some s) st) actions).session =
          some s₂ ∧
        storeFind (runResponse sm now (initSRW (some s) st) actions).store
          s₂.ID = some s₂) ∧
    runResponse sm now (initSRW (some s) st) [.setStatus n] =
      { session := some { s with LastActive := now }
        headerWritten := true
        sessionDestroyed := false
        statusCode := n
        events := [.setCookie (liveCookie sm { s with LastActive := now } now),
          .header n]
        store := storeWriteRun st { s with LastActive := now } } := by
  have h0 : cookieInv (initSRW (some s) st) := by
    refine ⟨Or.inr rfl, rfl, ?_⟩
    intro hw _
    exact absurd hw (by simp [initSRW])
  have h1 := runHandler_inv sm now (initSRW (some s) st) actions h0
  obtain ⟨hinv, hw⟩ :=
    finalize_spec sm now (runHandler sm now (initSRW (some s) st) actions) h1
  refine ⟨?_, hw, ?_, ?_, ?_⟩
  · have h3 := hinv.2.1
    rw [if_pos hw] at h3
    exact h3
  · have hw2 : (runResponse sm now (initSRW (some s) st)
        actions).headerWritten = true := hw
    rw [SRW.writeHeader, if_pos hw2]
  · exact fun hdest => hinv.2.2 hw hdest
  · rfl

/-- C3 witness: a concrete run with a body write followed by a redundant
WriteHeader produces exactly one cookie and persists the session. -/
theorem C3_single_cookie_witness :
    countCookies (runResponse serverSessionManager 5
      (initSRW (some demoSession) []) [.write 3, .writeHeader 404]).events
      = 1 ∧
    ∃ s₂,
      (runResponse serverSessionManager 5 (initSRW (some demoSession) [])
        [.write 3, .writeHeader 404]).session = some s₂ ∧
      storeFind (runResponse serverSessionManager 5
        (initSRW (some demoSession) [])
        [.write 3, .writeHeader 404]).store s₂.ID = some s₂ :=
  ⟨(C3_single_cookie serverSessionManager 5 demoSession []
      [.write 3, .writeHeader 404] 1 2).1,
   (C3_single_cookie serverSessionManager 5 demoSession []
      [.write 3, .writeHeader 404] 1 2).2.2.2.1 (by decide)⟩

end GoStarter
